import Mathlib

/-!
Verification of the agricultural-parcel dashboard (`src/app.py`).

The program is a Streamlit script over a GeoDataFrame.  We embed the
dataframe as a `List ParcelRecord`; the numeric columns (`superficie`,
`rendement_kg_ha`) are embedded as rationals, polygon geometry as the
list of its ring coordinates.  Each definition below is translated from
the corresponding lines of `src/app.py`.
-/

namespace AgriSig

/-- One row of the parcel collection (`data/parcelles_multiculture.geojson`):
columns `culture`, `region`, `superficie`, `rendement_kg_ha`, `geometry`. -/
structure ParcelRecord where
  culture : String
  region : String
  superficie : ℚ
  rendement_kg_ha : ℚ
  geometry : List (ℚ × ℚ)
deriving Repr, DecidableEq

/-- The filter of lines 75–78:
`st.session_state.data[data['region'].isin(regions) & data['culture'].isin(cultures)]`.
Row-wise boolean mask: region membership AND culture membership. -/
def filterRecords (coll : List ParcelRecord) (selRegions selCultures : List String) :
    List ParcelRecord :=
  coll.filter (fun r => selRegions.contains r.region && selCultures.contains r.culture)

/-- The hardcoded demo polygon of lines 56–57: `coords_demo` as passed to
`shapely.geometry.Polygon` (the ring is written closed in the source). -/
def coords_demo : List (ℚ × ℚ) :=
  [(-13.7, 9.5), (-13.6, 9.5), (-13.6, 9.6), (-13.7, 9.6), (-13.7, 9.5)]

/-- The four attribute values collected by the sidebar form (lines 48–51). -/
structure Submission where
  culture : String
  region : String
  superficie : ℚ
  rendement_kg_ha : ℚ
deriving Repr, DecidableEq

/-- The `new_row` GeoDataFrame built by the submit handler (lines 59–65):
the submitted attribute values together with the demo polygon. -/
def new_row (s : Submission) : ParcelRecord :=
  { culture := s.culture
    region := s.region
    superficie := s.superficie
    rendement_kg_ha := s.rendement_kg_ha
    geometry := coords_demo }

/-- Line 67: `pd.concat([st.session_state.data, new_row], ignore_index=True)` —
the new row is appended after all existing rows. -/
def submitAppend (data : List ParcelRecord) (s : Submission) : List ParcelRecord :=
  data ++ [new_row s]

/-- Session plus persistent storage.  `data` is `st.session_state.data`;
`file` is the record collection held by the persisted GeoJSON file
(its internal encoding is opaque, so the file is modelled by the
collection it stores). -/
structure SessionState where
  data : List ParcelRecord
  file : List ParcelRecord
deriving Repr, DecidableEq

/-- Lines 14–15: `save_data(gdf)` serialises the whole GeoDataFrame to the
persisted file, overwriting it (full rewrite). -/
def save_data (gdf : List ParcelRecord) (st : SessionState) : SessionState :=
  { st with file := gdf }

/-- Lines 19–20: `load_data()` reads the persisted collection back into
memory; the GeoJSON round trip is the identity on the stored records. -/
def load_data (st : SessionState) : List ParcelRecord :=
  st.file

/-- The submit handler, lines 55–70: build `new_row`, concat it onto
`st.session_state.data`, then `save_data(st.session_state.data)`. -/
def submitStep (st : SessionState) (s : Submission) : SessionState :=
  let st1 : SessionState := { st with data := submitAppend st.data s }
  save_data st1.data st1

/-- Line 89: `len(filtered_gdf)`. -/
def countView (view : List ParcelRecord) : ℕ :=
  view.length

/-- Rounding to two decimal places, as in `round(x, 2)` of line 90. -/
def round2 (q : ℚ) : ℚ :=
  (round (q * 100) : ℚ) / 100

/-- Line 90: `round(filtered_gdf['superficie'].sum(), 2)`. -/
def totalArea (view : List ParcelRecord) : ℚ :=
  round2 ((view.map (fun r => r.superficie)).sum)

/-- Distinct values of a column in order of first appearance, as computed by
pandas `Series.unique()` (lines 34–35 and 40–41). -/
def uniqueVals (l : List String) : List String :=
  l.foldl (fun acc c => if c ∈ acc then acc else acc ++ [c]) []

/-- Line 34: `st.session_state.data['region'].unique()` — the option list
(and default selection) of the region multiselect. -/
def regionOptions (data : List ParcelRecord) : List String :=
  uniqueVals (data.map (fun r => r.region))

/-- Line 40: `st.session_state.data['culture'].unique()` — the option list
(and default selection) of the culture multiselect. -/
def cultureOptions (data : List ParcelRecord) : List String :=
  uniqueVals (data.map (fun r => r.culture))

/-- Per-culture mean of line 95: the mean of `rendement_kg_ha` over the rows
of the view whose `culture` equals `c`. -/
def meanYield (view : List ParcelRecord) (c : String) : ℚ :=
  ((view.filter (fun r => r.culture == c)).map (fun r => r.rendement_kg_ha)).sum /
    ((view.filter (fun r => r.culture == c)).length : ℚ)

/-- Line 95: `filtered_gdf.groupby("culture")["rendement_kg_ha"].mean()` —
one entry per distinct culture of the view, carrying the group mean
(pandas sorts the group keys, hence the `insertionSort`). -/
def groupMeanYield (view : List ParcelRecord) : List (String × ℚ) :=
  ((cultureOptions view).insertionSort (fun a b => a ≤ b)).map
    (fun c => (c, meanYield view c))

/-- What the chart section of lines 94–105 puts on screen: either the bar
chart of the grouped means, or the "Aucune donnée" warning. -/
inductive ChartOutput where
  | chart : List (String × ℚ) → ChartOutput
  | warnNoData : ChartOutput
deriving Repr, DecidableEq

/-- Lines 94–105: `if not filtered_gdf.empty:` render the bar chart of
`rendement_df`, `else:` show the warning. -/
def renderChart (view : List ParcelRecord) : ChartOutput :=
  if !view.isEmpty then ChartOutput.chart (groupMeanYield view)
  else ChartOutput.warnNoData

/-- A row of `filtered_gdf.drop(columns="geometry")`: the four attribute
columns, no geometry. -/
structure AttrRow where
  culture : String
  region : String
  superficie : ℚ
  rendement_kg_ha : ℚ
deriving Repr, DecidableEq

/-- The `drop(columns="geometry")` projection of lines 109 and 112. -/
def dropGeometry (view : List ParcelRecord) : List AttrRow :=
  view.map (fun r =>
    { culture := r.culture
      region := r.region
      superficie := r.superficie
      rendement_kg_ha := r.rendement_kg_ha })

/-- Line 109: the table rendered by `st.dataframe`, built from the filtered
view with the geometry column dropped. -/
def tableRows (coll : List ParcelRecord) (R C : List String) : List AttrRow :=
  dropGeometry (filterRecords coll R C)

/-- Lines 112–118: the CSV export, rebuilt from the current filtered view on
every run (no cached artifact) with the geometry column dropped. -/
def csvRows (coll : List ParcelRecord) (R C : List String) : List AttrRow :=
  dropGeometry (filterRecords coll R C)

/-- One script run that submits the form: the multiselect widgets of lines
32–42 are created before the form handler runs, so the selections are
made against the options of the pre-submit data; the handler then appends
and saves (lines 55–70), and line 75 filters the post-submit data. -/
def scriptRun (st : SessionState) (selR selC : List String) (s : Submission) :
    SessionState × List ParcelRecord :=
  let st1 := submitStep st s
  (st1, filterRecords st1.data selR selC)

/-- Sample record used by the concrete witnesses (the spec's example data). -/
def sampleRec : ParcelRecord :=
  { culture := "maize", region := "Kindia", superficie := 2,
    rendement_kg_ha := 1000, geometry := coords_demo }

/-- Sample session with the file and the in-memory collection in sync. -/
def sampleState : SessionState :=
  { data := [sampleRec], file := [sampleRec] }

/-- Sample form submission (the spec's example submission). -/
def sampleSub : Submission :=
  { culture := "sorgho", region := "Kindia", superficie := 3.5,
    rendement_kg_ha := 800 }

/-- Membership in the filtered view, unfolded. -/
theorem mem_filterRecords {coll : List ParcelRecord} {R C : List String}
    {r : ParcelRecord} :
    r ∈ filterRecords coll R C ↔ r ∈ coll ∧ r.region ∈ R ∧ r.culture ∈ C := by
  simp [filterRecords, List.mem_filter]

/-- C1: `filter` returns exactly the records whose region is in the selected
regions and whose culture is in the selected cultures: a record is in the
filtered view iff it is in the collection and satisfies both memberships
(so the result is neither a superset nor a subset of that set of records). -/
theorem filter_exact (coll : List ParcelRecord) (R C : List String)
    (r : ParcelRecord) :
    r ∈ filterRecords coll R C ↔ r ∈ coll ∧ r.region ∈ R ∧ r.culture ∈ C :=
  mem_filterRecords

/-- C4: filtering with an empty region selection or an empty culture selection
returns the empty view, whatever the collection (in particular a non-empty
one): clearing a multiselect does not mean "select all". -/
theorem filter_empty_selection (coll : List ParcelRecord) :
    (∀ C : List String, filterRecords coll [] C = []) ∧
    (∀ R : List String, filterRecords coll R [] = []) := by
  constructor <;> intro sel <;>
    simp [filterRecords]

/-- C10: the filter is idempotent — re-filtering an already-filtered view with
the same selections returns it unchanged, since every record of the view
already passes the row mask. -/
theorem filter_idempotent (coll : List ParcelRecord) (R C : List String) :
    filterRecords (filterRecords coll R C) R C = filterRecords coll R C := by
  simp [filterRecords, List.filter_filter]

/-- C2: form submission appends exactly one record, and the appended record
carries exactly the submitted attribute values together with the fixed
demo polygon whose ring is (-13.7,9.5), (-13.6,9.5), (-13.6,9.6),
(-13.7,9.6), closed back to (-13.7,9.5). -/
theorem submit_appends_new_row (data : List ParcelRecord) (s : Submission) :
    (submitAppend data s).length = data.length + 1 ∧
    (submitAppend data s).getLast? = some (new_row s) ∧
    (new_row s).culture = s.culture ∧
    (new_row s).region = s.region ∧
    (new_row s).superficie = s.superficie ∧
    (new_row s).rendement_kg_ha = s.rendement_kg_ha ∧
    (new_row s).geometry =
      [(-13.7, 9.5), (-13.6, 9.5), (-13.6, 9.6), (-13.7, 9.6), (-13.7, 9.5)] := by
  refine ⟨?_, ?_, rfl, rfl, rfl, rfl, rfl⟩
  · simp [submitAppend]
  · simp [submitAppend]

/-- C7: the append leaves every pre-existing record unchanged and in its
original relative position — the first `data.length` entries of the new
collection are exactly `data` — and the new record comes after them. -/
theorem submit_frame (data : List ParcelRecord) (s : Submission) :
    (submitAppend data s).take data.length = data ∧
    (submitAppend data s).drop data.length = [new_row s] := by
  constructor
  · simp [submitAppend]
  · simp [submitAppend]

/-- C3: the append is followed by a full rewrite of the persisted file, so
after `submitStep` the file holds the whole updated collection; reloading
it in a fresh session yields the old records plus the new one, which is
present with the submitted values, and the file has exactly one more
record than before (the in-memory collection being in sync with the file
at the start of the interaction). -/
theorem append_then_reload (st : SessionState) (s : Submission)
    (h : st.file = st.data) :
    (submitStep st s).file = (submitStep st s).data ∧
    load_data (submitStep st s) = st.data ++ [new_row s] ∧
    new_row s ∈ load_data (submitStep st s) ∧
    (load_data (submitStep st s)).length = st.file.length + 1 := by
  refine ⟨rfl, rfl, ?_, ?_⟩
  · simp [load_data, submitStep, save_data, submitAppend]
  · simp [load_data, submitStep, save_data, submitAppend, h]

/-- Witness for `append_then_reload` at a concrete synced session. -/
theorem append_then_reload_witness :
    sampleState.file = sampleState.data ∧
    ((submitStep sampleState sampleSub).file = (submitStep sampleState sampleSub).data ∧
     load_data (submitStep sampleState sampleSub) = sampleState.data ++ [new_row sampleSub] ∧
     new_row sampleSub ∈ load_data (submitStep sampleState sampleSub) ∧
     (load_data (submitStep sampleState sampleSub)).length = sampleState.file.length + 1) :=
  ⟨rfl, append_then_reload sampleState sampleSub rfl⟩

/-- C5: the count metric is the number of records of the filtered view, the
total-area metric is the sum of the superficie values (accumulated record
by record) rounded to two decimals, and over the empty view they are 0
and 0.00. -/
theorem metrics_correct (view : List ParcelRecord) :
    countView view = view.length ∧
    totalArea view = round2 (view.foldr (fun r a => r.superficie + a) 0) ∧
    countView [] = 0 ∧
    totalArea [] = 0 := by
  refine ⟨rfl, ?_, rfl, ?_⟩
  · unfold totalArea
    congr 1
    induction view with
    | nil => rfl
    | cons r rest ih => simp [ih]
  · simp [totalArea, round2]

/-- Folding the first-appearance deduplication accumulates exactly the values
of the accumulator and of the list. -/
theorem mem_foldl_uniqueAux (l : List String) (acc : List String) (a : String) :
    a ∈ l.foldl (fun acc c => if c ∈ acc then acc else acc ++ [c]) acc ↔
      a ∈ acc ∨ a ∈ l := by
  induction l generalizing acc with
  | nil => simp
  | cons c rest ih =>
    rw [List.foldl_cons, ih]
    by_cases hc : c ∈ acc
    · rw [if_pos hc]
      simp only [List.mem_cons]
      constructor
      · rintro (h | h)
        · exact Or.inl h
        · exact Or.inr (Or.inr h)
      · rintro (h | h | h)
        · exact Or.inl h
        · exact Or.inl (h ▸ hc)
        · exact Or.inr h
    · rw [if_neg hc]
      simp only [List.mem_append, List.mem_singleton, List.mem_cons]
      tauto

/-- A value occurs among the distinct values of a column iff it occurs in the
column. -/
theorem mem_uniqueVals {a : String} {l : List String} :
    a ∈ uniqueVals l ↔ a ∈ l := by
  unfold uniqueVals
  rw [mem_foldl_uniqueAux]
  simp

/-- Pairs of the grouped-mean table are exactly the distinct cultures of the
view paired with their `meanYield`. -/
theorem mem_groupMeanYield {view : List ParcelRecord} {c : String} {q : ℚ} :
    (c, q) ∈ groupMeanYield view ↔
      c ∈ view.map (fun r => r.culture) ∧ q = meanYield view c := by
  constructor
  · intro h
    simp only [groupMeanYield, List.mem_map, List.mem_insertionSort] at h
    obtain ⟨a, ha, hpair⟩ := h
    rw [Prod.mk.injEq] at hpair
    obtain ⟨rfl, rfl⟩ := hpair
    exact ⟨(mem_uniqueVals.mp ha : _), rfl⟩
  · rintro ⟨hc, rfl⟩
    simp only [groupMeanYield, List.mem_map, List.mem_insertionSort]
    exact ⟨c, mem_uniqueVals.mpr hc, rfl⟩

/-- A culture present in the view has a non-empty group, so the group size is
a non-zero rational. -/
theorem group_length_ne_zero {view : List ParcelRecord} {c : String}
    (h : ∃ r ∈ view, r.culture = c) :
    ((view.filter (fun r => r.culture == c)).length : ℚ) ≠ 0 := by
  obtain ⟨r, hr, hrc⟩ := h
  have hm : r ∈ view.filter (fun r => r.culture == c) := by
    rw [List.mem_filter]
    exact ⟨hr, by simp [hrc]⟩
  have hpos : 0 < (view.filter (fun r => r.culture == c)).length :=
    List.length_pos.mpr (List.ne_nil_of_mem hm)
  exact_mod_cast hpos.ne'

/-- C6: on a non-empty view the chart section renders the bar chart of the
per-culture means, whose entries are exactly the cultures present in the
view, each paired with the arithmetic mean of `rendement_kg_ha` over its
group (mean times group size equals the group sum); on an empty view no
chart is produced and the warning is shown instead. -/
theorem chart_mean_yield (view : List ParcelRecord) :
    (view ≠ [] → renderChart view = ChartOutput.chart (groupMeanYield view)) ∧
    (∀ c q, (c, q) ∈ groupMeanYield view ↔
      ((∃ r ∈ view, r.culture = c) ∧
        q * ((view.filter (fun r => r.culture == c)).length : ℚ) =
          ((view.filter (fun r => r.culture == c)).map
            (fun r => r.rendement_kg_ha)).sum)) ∧
    (view = [] → renderChart view = ChartOutput.warnNoData) := by
  refine ⟨?_, ?_, ?_⟩
  · intro h
    cases view with
    | nil => exact absurd rfl h
    | cons a l => rfl
  · intro c q
    rw [mem_groupMeanYield]
    constructor
    · rintro ⟨hc, rfl⟩
      rw [List.mem_map] at hc
      obtain ⟨r, hr, hrc⟩ := hc
      have hpresent : ∃ r ∈ view, r.culture = c := ⟨r, hr, hrc⟩
      refine ⟨hpresent, ?_⟩
      unfold meanYield
      exact div_mul_cancel₀ _ (group_length_ne_zero hpresent)
    · rintro ⟨hpresent, hq⟩
      have hne := group_length_ne_zero hpresent
      constructor
      · rw [List.mem_map]
        obtain ⟨r, hr, hrc⟩ := hpresent
        exact ⟨r, hr, hrc⟩
      · unfold meanYield
        rw [eq_div_iff hne]
        exact hq
  · intro h
    subst h
    rfl

/-- Witness for `chart_mean_yield`: both the non-empty and the empty branch
at concrete views. -/
theorem chart_mean_yield_witness :
    ([sampleRec] ≠ ([] : List ParcelRecord) ∧
      renderChart [sampleRec] = ChartOutput.chart (groupMeanYield [sampleRec])) ∧
    renderChart [] = ChartOutput.warnNoData :=
  ⟨⟨by simp, (chart_mean_yield [sampleRec]).1 (by simp)⟩,
    (chart_mean_yield ([] : List ParcelRecord)).2.2 rfl⟩

/-- C8: the table and the export are built from the same projection of the
filtered view (not of the full collection): row for row, the projected
rows carry exactly the four attribute columns of the corresponding
filtered records, geometry excluded by construction of `AttrRow`. -/
theorem table_and_export_rows (coll : List ParcelRecord) (R C : List String) :
    tableRows coll R C = csvRows coll R C ∧
    (csvRows coll R C).length = (filterRecords coll R C).length ∧
    (∀ i : ℕ, (csvRows coll R C)[i]? =
      ((filterRecords coll R C)[i]?).map (fun r =>
        AttrRow.mk r.culture r.region r.superficie r.rendement_kg_ha)) := by
  refine ⟨rfl, ?_, ?_⟩
  · simp [csvRows, dropGeometry]
  · intro i
    simp [csvRows, dropGeometry]

/-- C9: within the script run that submits the form, the selections were made
against option lists computed from the pre-append data, so a submission
whose region or culture is new to the collection yields a filtered view
equal to the pre-append one — the new record is not in it (hence absent
from the map, chart, table and export of that run, which are all built
from this view) — while a later rerun with the recomputed default
selections does include the new record. -/
theorem new_value_invisible_until_rerun (st : SessionState) (s : Submission)
    (selR selC : List String)
    (hR : selR ⊆ regionOptions st.data)
    (hC : selC ⊆ cultureOptions st.data)
    (hnew : s.region ∉ st.data.map (fun r => r.region) ∨
            s.culture ∉ st.data.map (fun r => r.culture)) :
    (scriptRun st selR selC s).2 = filterRecords st.data selR selC ∧
    new_row s ∉ (scriptRun st selR selC s).2 ∧
    new_row s ∈ filterRecords (scriptRun st selR selC s).1.data
        (regionOptions (scriptRun st selR selC s).1.data)
        (cultureOptions (scriptRun st selR selC s).1.data) := by
  have hdata : (scriptRun st selR selC s).1.data = st.data ++ [new_row s] := rfl
  have hsingle : List.filter
      (fun r => selR.contains r.region && selC.contains r.culture)
      [new_row s] = [] := by
    rcases hnew with h | h
    · have h1 : s.region ∉ selR := fun hin => h (mem_uniqueVals.mp (hR hin))
      simp [new_row, h1]
    · have h1 : s.culture ∉ selC := fun hin => h (mem_uniqueVals.mp (hC hin))
      simp [new_row, h1]
  have hview : (scriptRun st selR selC s).2 = filterRecords st.data selR selC := by
    show filterRecords (st.data ++ [new_row s]) selR selC = _
    unfold filterRecords
    rw [List.filter_append, hsingle, List.append_nil]
  refine ⟨hview, ?_, ?_⟩
  · rw [hview]
    intro hmem
    have hmem' := mem_filterRecords.mp hmem
    rcases hnew with h | h
    · exact h (List.mem_map.mpr ⟨new_row s, hmem'.1, rfl⟩)
    · exact h (List.mem_map.mpr ⟨new_row s, hmem'.1, rfl⟩)
  · rw [hdata]
    refine mem_filterRecords.mpr ⟨List.mem_append_right _ (List.mem_singleton.mpr rfl), ?_, ?_⟩
    · exact mem_uniqueVals.mpr
        (List.mem_map.mpr ⟨new_row s, List.mem_append_right _ (List.mem_singleton.mpr rfl), rfl⟩)
    · exact mem_uniqueVals.mpr
        (List.mem_map.mpr ⟨new_row s, List.mem_append_right _ (List.mem_singleton.mpr rfl), rfl⟩)

/-- Witness for `new_value_invisible_until_rerun`: a one-record session, a
submission with a culture not yet in the collection, and the default
selections of the pre-submit data. -/
theorem new_value_invisible_witness :
    ["Kindia"] ⊆ regionOptions sampleState.data ∧
    ["maize"] ⊆ cultureOptions sampleState.data ∧
    (sampleSub.region ∉ sampleState.data.map (fun r => r.region) ∨
      sampleSub.culture ∉ sampleState.data.map (fun r => r.culture)) ∧
    ((scriptRun sampleState ["Kindia"] ["maize"] sampleSub).2 =
        filterRecords sampleState.data ["Kindia"] ["maize"] ∧
      new_row sampleSub ∉ (scriptRun sampleState ["Kindia"] ["maize"] sampleSub).2 ∧
      new_row sampleSub ∈
        filterRecords (scriptRun sampleState ["Kindia"] ["maize"] sampleSub).1.data
          (regionOptions (scriptRun sampleState ["Kindia"] ["maize"] sampleSub).1.data)
          (cultureOptions (scriptRun sampleState ["Kindia"] ["maize"] sampleSub).1.data)) :=
  ⟨by decide, by decide, Or.inr (by decide),
    new_value_invisible_until_rerun sampleState sampleSub ["Kindia"] ["maize"]
      (by decide) (by decide) (Or.inr (by decide))⟩

end AgriSig
